import Mathlib

/-!
Verification development for the completion-relay component in
`src/app/api/graphql/route.ts`: the configuration resolver `readEnvValue`
and the relay `fetchDeepseekCompletion`.  TypeScript values are embedded
as follows: JS strings become `String`, `undefined`-able values become
`Option`, JS numbers become an inductive over exact rationals (`JsNumber`),
thrown values become an explicit error type, and the single upstream
`fetch` is a parameter describing its outcome.  Side effects (arming and
clearing the timer, issuing the HTTP call) are recorded as an event trace.
-/

/-- The four configuration key names read by the relay
(`WorkerEnv` in route.ts). -/
inductive EnvKey where
  | DEEPSEEK_API_KEY
  | DEEPSEEK_MODEL
  | DEEPSEEK_TIMEOUT_MS
  | DEEPSEEK_BASE_URL
deriving DecidableEq, Repr

/-- A key-value environment (request-scoped binding or `process.env`);
`none` models an absent key. -/
def WorkerEnv : Type := EnvKey → Option String

/-- JS truthiness of a `string | undefined` value: `undefined` and the
empty string are falsy, every other string is truthy. -/
def jsTruthyStr : Option String → Bool
  | none => false
  | some s => s ≠ ""

/-- Whitespace as recognized by JS `String.prototype.trim` (ASCII part). -/
def jsWhitespace (c : Char) : Bool :=
  c = ' ' ∨ c = '\t' ∨ c = '\n' ∨ c = '\r' ∨ c = '\x0b' ∨ c = '\x0c'

/-- JS `s.trim()`: drop whitespace from both ends. -/
def jsTrim (s : String) : String :=
  ⟨((s.data.dropWhile jsWhitespace).reverse.dropWhile jsWhitespace).reverse⟩

/-- Resolver `readEnvValue(key, env?)` from route.ts lines 84-96: return the
request-scoped value when truthy and non-blank after trimming, else the
`process.env` value under the same conditions, else `undefined`.
`processEnv = none` models `typeof process === "undefined"`. -/
def readEnvValue (key : EnvKey) (env : Option WorkerEnv)
    (processEnv : Option WorkerEnv) : Option String :=
  let fromContext := env.bind (fun e => e key)
  if jsTruthyStr fromContext ∧ jsTrim (fromContext.getD "") ≠ "" then
    fromContext
  else
    let fromProcess := processEnv.bind (fun e => e key)
    if jsTruthyStr fromProcess then
      if jsTruthyStr fromProcess ∧ jsTrim (fromProcess.getD "") ≠ "" then
        fromProcess
      else none
    else none

/-- A JS number as produced by `Number(...)`: NaN, a signed infinity, or a
finite value (modelled as an exact rational). -/
inductive JsNumber where
  | nan
  | inf (neg : Bool)
  | finite (q : ℚ)
deriving DecidableEq, Repr

/-- Predicate `Number.isFinite`. -/
def JsNumber.isFinite : JsNumber → Bool
  | .finite _ => true
  | _ => false

/-- Value of a hexadecimal digit character. -/
def hexDigitVal (c : Char) : Option Nat :=
  if c.isDigit then some (c.toNat - 48)
  else if 'a' ≤ c ∧ c ≤ 'f' then some (c.toNat - 97 + 10)
  else if 'A' ≤ c ∧ c ≤ 'F' then some (c.toNat - 65 + 10)
  else none

/-- Parse a non-empty digit list in radix `r` (digits via `hexDigitVal`,
bounded by `r`). -/
def parseRadixDigits (r : Nat) (l : List Char) : Option Nat :=
  if l = [] then none
  else
    l.foldl
      (fun acc c =>
        match acc, hexDigitVal c with
        | some a, some d => if d < r then some (a * r + d) else none
        | _, _ => none)
      (some 0)

/-- Parse a non-empty list of decimal digits as a natural number. -/
def parseDigitsList (l : List Char) : Option Nat :=
  if l ≠ [] ∧ l.all Char.isDigit then
    some (l.foldl (fun a c => a * 10 + (c.toNat - 48)) 0)
  else none

/-- Split a character list at every occurrence of `c`. -/
def splitOnChar (c : Char) : List Char → List (List Char)
  | [] => [[]]
  | x :: xs =>
      let r := splitOnChar c xs
      if x = c then [] :: r
      else
        match r with
        | h :: t => (x :: h) :: t
        | [] => [[x]]

/-- Parse the mantissa of a JS decimal literal: `digits`, `digits . digits?`
or `. digits`, as an exact rational. -/
def parseMantissa (l : List Char) : Option ℚ :=
  match splitOnChar '.' l with
  | [a] => (parseDigitsList a).map (fun n => (n : ℚ))
  | [a, b] =>
      if a = [] ∧ b = [] then none
      else
        let na := if a = [] then some 0 else parseDigitsList a
        let nb := if b = [] then some 0 else parseDigitsList b
        match na, nb with
        | some x, some y => some ((x : ℚ) + (y : ℚ) / (10 : ℚ) ^ b.length)
        | _, _ => none
  | _ => none

/-- Parse the signed-integer exponent part of a JS decimal literal. -/
def parseExpPart (l : List Char) : Option Int :=
  match l with
  | '-' :: u => (parseDigitsList u).map (fun n => -(n : Int))
  | '+' :: u => (parseDigitsList u).map (fun n => (n : Int))
  | u => (parseDigitsList u).map (fun n => (n : Int))

/-- Parse an unsigned JS decimal literal (mantissa with optional `e`/`E`
exponent) as an exact rational. -/
def parseDecimalLit (l : List Char) : Option ℚ :=
  let l := l.map (fun c => if c = 'E' then 'e' else c)
  match splitOnChar 'e' l with
  | [m] => parseMantissa m
  | [m, e] =>
      match parseMantissa m, parseExpPart e with
      | some q, some ex => some (q * (10 : ℚ) ^ ex)
      | _, _ => none
  | _ => none

/-- An optionally signed decimal literal. -/
def parseSignedDecimal (t : List Char) : JsNumber :=
  let p :=
    match t with
    | '-' :: u => (true, u)
    | '+' :: u => (false, u)
    | u => (false, u)
  match parseDecimalLit p.2 with
  | some q => .finite (if p.1 then -q else q)
  | none => .nan

/-- A radix-prefixed literal body: finite when it parses, NaN otherwise. -/
def finiteOrNaN : Option Nat → JsNumber
  | some n => .finite (n : ℚ)
  | none => .nan

/-- JS `Number(string)`: trim, empty means zero, `Infinity` forms, radix
literals `0x`/`0o`/`0b` (unsigned only), otherwise an optionally signed
decimal literal; anything else is NaN.  Finite values are exact rationals
rather than rounded doubles. -/
def jsStringToNumber (s : String) : JsNumber :=
  let t := (jsTrim s).data
  if t = [] then .finite 0
  else if t = "Infinity".data ∨ t = "+Infinity".data then .inf false
  else if t = "-Infinity".data then .inf true
  else
    match t with
    | '0' :: c :: rest =>
        if c = 'x' ∨ c = 'X' then finiteOrNaN (parseRadixDigits 16 rest)
        else if c = 'o' ∨ c = 'O' then finiteOrNaN (parseRadixDigits 8 rest)
        else if c = 'b' ∨ c = 'B' then finiteOrNaN (parseRadixDigits 2 rest)
        else parseSignedDecimal t
    | _ => parseSignedDecimal t

/-- Parsed success payload field `message.content` (both optional in the
`DeepseekChatResponse` type of route.ts). -/
structure DSMessage where
  content : Option String
deriving DecidableEq, Repr

/-- One element of `choices` in the parsed success payload. -/
structure DSChoice where
  message : Option DSMessage
deriving DecidableEq, Repr

/-- The parsed upstream JSON payload; `choices` itself may be absent
(route.ts reads it with `data.choices?.`). -/
structure DeepseekChatResponse where
  choices : Option (List DSChoice)
deriving DecidableEq, Repr

/-- A thrown JS value as seen by the `catch` block: an `Error` instance
with its `name` and `message`, or some non-`Error` value. -/
inductive JsError where
  | jsError (name message : String)
  | nonError
deriving DecidableEq, Repr

/-- Outcome of the single upstream `fetch`: either the promise rejects
with a thrown value (network failure, abort), or a response arrives with
a status, a body text, and a JSON-parse result (`.error` models
`response.json()` rejecting on malformed JSON). -/
inductive FetchResult where
  | thrown (e : JsError)
  | response (status : Nat) (bodyText : String)
      (json : Except JsError DeepseekChatResponse)
deriving Repr

/-- The upstream HTTP request constructed by the relay (URL, method,
headers, and the JSON body fields). -/
structure UpstreamRequest where
  url : String
  method : String
  contentType : String
  authorization : String
  model : String
  temperature : ℚ
  max_tokens : Nat
  messages : List (String × String)
deriving DecidableEq, Repr

/-- Observable side effects of one relay invocation, in order. -/
inductive RelayEvent where
  | setTimeoutEvt (delayMs : ℚ)
  | fetchEvt (req : UpstreamRequest)
  | clearTimeoutEvt
deriving DecidableEq, Repr

def RelayEvent.isSetTimeout : RelayEvent → Bool
  | .setTimeoutEvt _ => true
  | _ => false

def RelayEvent.isFetch : RelayEvent → Bool
  | .fetchEvt _ => true
  | _ => false

def RelayEvent.isClearTimeout : RelayEvent → Bool
  | .clearTimeoutEvt => true
  | _ => false

/-- Result of one relay invocation: the returned string and the event
trace. -/
structure RelayResult where
  reply : String
  events : List RelayEvent
deriving DecidableEq, Repr

/-- Diagnostic returned when no API key is configured (route.ts line 105). -/
def missingKeyDiag : String :=
  "服务器缺少 DEEPSEEK_API_KEY，请先在环境变量或 Workers Secrets 中配置后再试。"

/-- Diagnostic substituted when the optional chain over the success
payload yields no content (route.ts line 156). -/
def noContentDiag : String := "DeepSeek 没有返回内容，请稍后再试。"

/-- Fixed system persona sent as the first message (route.ts line 135). -/
def systemPersona : String :=
  "你是一位中英双语的 DeFi 技术助教，帮助用户把想法转换成下一步行动。"

/-- Head of the generic error diagnostic (route.ts line 166). -/
def errDiagHead : String := "抱歉，调用 DeepSeek 出错："

/-- Fallback reason used when the thrown value is not an `Error`
(route.ts line 167). -/
def unknownReason : String := "未知原因"

/-- The timeout diagnostic, stating the timeout in whole seconds
(route.ts lines 162-164): `Math.floor(timeoutMs / 1000)`. -/
def timeoutDiag (timeoutMs : ℚ) : String :=
  "与 DeepSeek 的连接在 " ++ toString ⌊timeoutMs / 1000⌋ ++
    " 秒后超时，请再尝试一次。"

/-- Effective timeout (route.ts lines 108-111): the resolved setting is
parsed with `Number` when truthy (NaN otherwise); a finite positive parse
is used, anything else falls back to 25000 ms. -/
def effectiveTimeoutMs (timeoutSetting : Option String) : ℚ :=
  let timeoutParsed :=
    match timeoutSetting with
    | some s => jsStringToNumber s
    | none => JsNumber.nan
  match timeoutParsed with
  | .finite q => if 0 < q then q else 25000
  | _ => 25000

/-- Normalization `baseUrl.replace` with an end-anchored single-slash pattern
(route.ts line 115): strips at most one trailing slash. -/
def stripTrailingSlash (s : String) : String :=
  if s.data.getLast? = some '/' then ⟨s.data.dropLast⟩ else s

/-- Message text synthesized for a non-2xx response (route.ts lines
148-150): status and body, with an empty body replaced by `unknown`. -/
def httpErrorMessage (status : Nat) (bodyText : String) : String :=
  "DeepSeek request failed (" ++ toString status ++ "): " ++
    (if bodyText = "" then "unknown" else bodyText)

/-- The `catch` block (route.ts lines 159-168): an `Error` named
`AbortError` yields the timeout diagnostic; any other thrown value yields
the generic diagnostic with the error message, or `未知原因` when the
thrown value is not an `Error`. -/
def catchHandler (timeoutMs : ℚ) (e : JsError) : String :=
  match e with
  | .jsError name msg =>
      if name = "AbortError" then timeoutDiag timeoutMs
      else errDiagHead ++ msg
  | .nonError => errDiagHead ++ unknownReason

/-- The optional chain `data.choices?.[0]?.message?.content`
(route.ts lines 154-155, before `?.trim()`). -/
def extractContent (data : DeepseekChatResponse) : Option String :=
  ((data.choices.bind List.head?).bind DSChoice.message).bind DSMessage.content

/-- Relay `fetchDeepseekCompletion` (route.ts lines 98-172).  The upstream
`fetch` outcome is the parameter `upstream`; `env` is the request-scoped
binding and `processEnv` models `process.env` (absent when `process` is
undefined).  Returns the reply string plus the trace of timer/fetch
effects; the `finally` clause is the trailing `clearTimeoutEvt` present
on every path that armed the timer. -/
def fetchDeepseekCompletion (userMessage : String) (env : Option WorkerEnv)
    (processEnv : Option WorkerEnv) (upstream : FetchResult) : RelayResult :=
  let apiKeyOpt := readEnvValue .DEEPSEEK_API_KEY env processEnv
  if ¬ jsTruthyStr apiKeyOpt then
    { reply := missingKeyDiag, events := [] }
  else
    let apiKey := apiKeyOpt.getD ""
    let timeoutMs := effectiveTimeoutMs (readEnvValue .DEEPSEEK_TIMEOUT_MS env processEnv)
    let baseUrl := (readEnvValue .DEEPSEEK_BASE_URL env processEnv).getD
      "https://api.deepseek.com"
    let endpoint := stripTrailingSlash baseUrl ++ "/v1/chat/completions"
    let req : UpstreamRequest :=
      { url := endpoint
        method := "POST"
        contentType := "application/json"
        authorization := "Bearer " ++ apiKey
        model := (readEnvValue .DEEPSEEK_MODEL env processEnv).getD "deepseek-chat"
        temperature := 7 / 10
        max_tokens := 400
        messages := [("system", systemPersona), ("user", userMessage)] }
    let reply :=
      match upstream with
      | .thrown e => catchHandler timeoutMs e
      | .response status bodyText json =>
          if ¬ (200 ≤ status ∧ status ≤ 299) then
            catchHandler timeoutMs (.jsError "Error" (httpErrorMessage status bodyText))
          else
            match json with
            | .error e => catchHandler timeoutMs e
            | .ok data =>
                ((extractContent data).map jsTrim).getD noContentDiag
    { reply := reply
      events := [.setTimeoutEvt timeoutMs, .fetchEvt req, .clearTimeoutEvt] }

/-- The request of the first `fetchEvt` in a trace, if any. -/
def firstFetchReq (r : RelayResult) : Option UpstreamRequest :=
  r.events.findSome? (fun e =>
    match e with
    | .fetchEvt q => some q
    | _ => none)

/-- Sample request-scoped environment carrying only an API key. -/
def sampleReqEnv : WorkerEnv := fun k =>
  match k with
  | .DEEPSEEK_API_KEY => some "req-key"
  | _ => none

/-- Sample process-wide environment carrying a different API key and a
model name. -/
def sampleProcEnv : WorkerEnv := fun k =>
  match k with
  | .DEEPSEEK_API_KEY => some "proc-key"
  | .DEEPSEEK_MODEL => some "proc-model"
  | _ => none

/-- Sample environment whose API key carries surrounding whitespace. -/
def samplePaddedEnv : WorkerEnv := fun k =>
  match k with
  | .DEEPSEEK_API_KEY => some "  key  "
  | _ => none

/-- Sample environment with an API key and an explicit 3000 ms timeout. -/
def sampleTimeoutEnv : WorkerEnv := fun k =>
  match k with
  | .DEEPSEEK_API_KEY => some "sk-test"
  | .DEEPSEEK_TIMEOUT_MS => some "3000"
  | _ => none

/-- Sample environment with an API key, a base URL with a trailing slash
and a model. -/
def sampleFullEnv : WorkerEnv := fun k =>
  match k with
  | .DEEPSEEK_API_KEY => some "sk-test"
  | .DEEPSEEK_BASE_URL => some "https://example.com/"
  | .DEEPSEEK_MODEL => some "my-model"
  | _ => none

/-- A blank (whitespace-only) option is treated as absent by the resolver;
`blankOrAbsent` captures `absent, empty, or blank after trimming`. -/
def blankOrAbsent (o : Option String) : Prop :=
  ∀ v, o = some v → jsTrim v = ""

lemma jsTrim_empty : jsTrim "" = "" := rfl

/-- A present, non-blank request-scoped value is returned by the resolver. -/
lemma readEnvValue_req {key : EnvKey} {env : Option WorkerEnv}
    (processEnv : Option WorkerEnv) {v : String}
    (h : env.bind (fun e => e key) = some v) (htrim : jsTrim v ≠ "") :
    readEnvValue key env processEnv = some v := by
  have hv : v ≠ "" := by
    rintro rfl; exact htrim jsTrim_empty
  simp only [readEnvValue]
  rw [h]
  simp [jsTruthyStr, hv, htrim]

/-- A value returned by the resolver is never empty and never blank. -/
lemma readEnvValue_ne_blank {key : EnvKey} {env processEnv : Option WorkerEnv}
    {v : String} (h : readEnvValue key env processEnv = some v) :
    v ≠ "" ∧ jsTrim v ≠ "" := by
  simp only [readEnvValue] at h
  split at h
  · next hc =>
    obtain ⟨h1, h2⟩ := hc
    cases hb : env.bind (fun e => e key) with
    | none => rw [hb] at h; cases h
    | some w =>
      rw [hb] at h h1 h2
      cases h
      simp only [jsTruthyStr, Option.getD] at h1 h2
      exact ⟨by simpa using h1, h2⟩
  · split at h
    · split at h
      · next hc =>
        obtain ⟨h1, h2⟩ := hc
        cases hb : processEnv.bind (fun e => e key) with
        | none => rw [hb] at h; cases h
        | some w =>
          rw [hb] at h h1 h2
          cases h
          simp only [jsTruthyStr, Option.getD] at h1 h2
          exact ⟨by simpa using h1, h2⟩
      · cases h
    · cases h

/-- C2: for every settings key and every pair of request-scoped mapping and
process-wide environment, the resolver returns the request-scoped value
when it is present and non-blank after trimming (whatever the process
environment holds); otherwise the process-wide value when that is present
and non-blank after trimming; otherwise absent. -/
theorem C2_resolver_order (key : EnvKey) (env processEnv : Option WorkerEnv) :
    (∀ v, env.bind (fun e => e key) = some v → jsTrim v ≠ "" →
      readEnvValue key env processEnv = some v) ∧
    (blankOrAbsent (env.bind (fun e => e key)) →
      ∀ w, processEnv.bind (fun e => e key) = some w → jsTrim w ≠ "" →
        readEnvValue key env processEnv = some w) ∧
    (blankOrAbsent (env.bind (fun e => e key)) →
      blankOrAbsent (processEnv.bind (fun e => e key)) →
      readEnvValue key env processEnv = none) := by
  refine ⟨?_, ?_, ?_⟩
  · intro v h htrim
    have hv : v ≠ "" := by
      rintro rfl; exact htrim jsTrim_empty
    simp only [readEnvValue]
    rw [h]
    simp [jsTruthyStr, hv, htrim]
  · intro hreq w h htrim
    have hw : w ≠ "" := by
      rintro rfl; exact htrim jsTrim_empty
    have hfirst : ¬ (jsTruthyStr (env.bind (fun e => e key)) ∧
        jsTrim ((env.bind (fun e => e key)).getD "") ≠ "") := by
      cases hb : env.bind (fun e => e key) with
      | none => simp [jsTruthyStr]
      | some u =>
        have := hreq u hb
        simp [jsTruthyStr, this]
    simp only [readEnvValue]
    rw [if_neg hfirst, h]
    simp [jsTruthyStr, hw, htrim]
  · intro hreq hproc
    have hfirst : ¬ (jsTruthyStr (env.bind (fun e => e key)) ∧
        jsTrim ((env.bind (fun e => e key)).getD "") ≠ "") := by
      cases hb : env.bind (fun e => e key) with
      | none => simp [jsTruthyStr]
      | some u =>
        have := hreq u hb
        simp [jsTruthyStr, this]
    simp only [readEnvValue]
    rw [if_neg hfirst]
    cases hb : processEnv.bind (fun e => e key) with
    | none => simp [jsTruthyStr]
    | some u =>
      have := hproc u hb
      simp [jsTruthyStr, this]

/-- Witness for C2 at concrete environments: the request-scoped API key
shadows the process one; an absent request-scoped model falls through to
the process value; a key absent from both resolves to absent. -/
theorem C2_resolver_order_witness :
    readEnvValue .DEEPSEEK_API_KEY (some sampleReqEnv) (some sampleProcEnv) = some "req-key" ∧
    readEnvValue .DEEPSEEK_MODEL (some sampleReqEnv) (some sampleProcEnv) = some "proc-model" ∧
    readEnvValue .DEEPSEEK_BASE_URL (some sampleReqEnv) (some sampleProcEnv) = none :=
  ⟨(C2_resolver_order .DEEPSEEK_API_KEY (some sampleReqEnv) (some sampleProcEnv)).1
      "req-key" rfl (by decide),
   (C2_resolver_order .DEEPSEEK_MODEL (some sampleReqEnv) (some sampleProcEnv)).2.1
      (by intro v h; simp [sampleReqEnv] at h) "proc-model" rfl (by decide),
   (C2_resolver_order .DEEPSEEK_BASE_URL (some sampleReqEnv) (some sampleProcEnv)).2.2
      (by intro v h; simp [sampleReqEnv] at h)
      (by intro v h; simp [sampleProcEnv] at h)⟩

/-- When the API key resolves, the relay arms the timer, issues exactly the
constructed request, maps the upstream outcome through the success and
catch branches, and clears the timer last. -/
lemma fetchDeepseekCompletion_presentKey
    (userMessage : String) (env processEnv : Option WorkerEnv)
    (upstream : FetchResult) {v : String}
    (hkey : readEnvValue .DEEPSEEK_API_KEY env processEnv = some v) :
    fetchDeepseekCompletion userMessage env processEnv upstream =
      { reply :=
          match upstream with
          | .thrown e =>
              catchHandler
                (effectiveTimeoutMs (readEnvValue .DEEPSEEK_TIMEOUT_MS env processEnv)) e
          | .response status bodyText json =>
              if ¬ (200 ≤ status ∧ status ≤ 299) then
                catchHandler
                  (effectiveTimeoutMs (readEnvValue .DEEPSEEK_TIMEOUT_MS env processEnv))
                  (.jsError "Error" (httpErrorMessage status bodyText))
              else
                match json with
                | .error e =>
                    catchHandler
                      (effectiveTimeoutMs (readEnvValue .DEEPSEEK_TIMEOUT_MS env processEnv)) e
                | .ok data => ((extractContent data).map jsTrim).getD noContentDiag
        events :=
          [.setTimeoutEvt (effectiveTimeoutMs (readEnvValue .DEEPSEEK_TIMEOUT_MS env processEnv)),
           .fetchEvt
             { url := stripTrailingSlash
                 ((readEnvValue .DEEPSEEK_BASE_URL env processEnv).getD
                   "https://api.deepseek.com") ++ "/v1/chat/completions"
               method := "POST"
               contentType := "application/json"
               authorization := "Bearer " ++ v
               model := (readEnvValue .DEEPSEEK_MODEL env processEnv).getD "deepseek-chat"
               temperature := 7 / 10
               max_tokens := 400
               messages := [("system", systemPersona), ("user", userMessage)] },
           .clearTimeoutEvt] } := by
  have hv : v ≠ "" := (readEnvValue_ne_blank hkey).1
  simp only [fetchDeepseekCompletion]
  rw [hkey]
  simp [jsTruthyStr, hv]

/-- When the API key resolves to absent, the relay returns the missing-key
diagnostic with no side effects. -/
lemma fetchDeepseekCompletion_missingKey
    (userMessage : String) (env processEnv : Option WorkerEnv)
    (upstream : FetchResult)
    (hkey : readEnvValue .DEEPSEEK_API_KEY env processEnv = none) :
    fetchDeepseekCompletion userMessage env processEnv upstream =
      { reply := missingKeyDiag, events := [] } := by
  simp only [fetchDeepseekCompletion]
  rw [hkey]
  simp [jsTruthyStr]

lemma error_ne_abort : ("Error" : String) ≠ "AbortError" := by decide

/-- C3: when `api_key` resolves to absent, the relay returns the fixed
missing-credential diagnostic and issues zero upstream HTTP calls (its
trace has no fetch event). -/
theorem C3_missing_credential (userMessage : String)
    (env processEnv : Option WorkerEnv) (upstream : FetchResult)
    (hkey : readEnvValue .DEEPSEEK_API_KEY env processEnv = none) :
    (fetchDeepseekCompletion userMessage env processEnv upstream).reply = missingKeyDiag ∧
    (fetchDeepseekCompletion userMessage env processEnv upstream).events.countP
      RelayEvent.isFetch = 0 := by
  rw [fetchDeepseekCompletion_missingKey userMessage env processEnv upstream hkey]
  exact ⟨rfl, rfl⟩

/-- Witness for C3: with no environment at all, the key is absent, the
diagnostic is returned and the trace holds no fetch. -/
theorem C3_missing_credential_witness :
    readEnvValue .DEEPSEEK_API_KEY none none = none ∧
    (fetchDeepseekCompletion "hi" none none (.thrown .nonError)).reply = missingKeyDiag ∧
    (fetchDeepseekCompletion "hi" none none (.thrown .nonError)).events.countP
      RelayEvent.isFetch = 0 :=
  ⟨by decide, C3_missing_credential "hi" none none (.thrown .nonError) (by decide)⟩

/-- C1 as stated is false on the code: content `"   "` is present, so the
nullish-coalescing fallback does not fire; the reply is the empty string,
not the no-content diagnostic. -/
theorem C1_counterexample :
    (fetchDeepseekCompletion "hi" (some sampleReqEnv) none
      (.response 200 ""
        (.ok ⟨some [⟨some ⟨some "   "⟩⟩]⟩))).reply = "" ∧
    ("" : String) ≠ noContentDiag := by
  constructor
  · decide
  · decide

/-- C1 (amended): for every 2xx upstream response with well-formed JSON,
the reply is the trimmed `choices[0].message.content` whenever the
optional chain yields a content string, even one that is empty after
trimming; the fixed no-content diagnostic is substituted exactly when the
chain yields nothing (choices absent or empty, message or content
absent). -/
theorem C1_success_extraction (userMessage : String)
    (env processEnv : Option WorkerEnv) (status : Nat) (bodyText : String)
    (data : DeepseekChatResponse) (v : String)
    (hkey : readEnvValue .DEEPSEEK_API_KEY env processEnv = some v)
    (h2xx : 200 ≤ status ∧ status ≤ 299) :
    (∀ c, extractContent data = some c →
      (fetchDeepseekCompletion userMessage env processEnv
        (.response status bodyText (.ok data))).reply = jsTrim c) ∧
    (extractContent data = none →
      (fetchDeepseekCompletion userMessage env processEnv
        (.response status bodyText (.ok data))).reply = noContentDiag) := by
  rw [fetchDeepseekCompletion_presentKey userMessage env processEnv
    (.response status bodyText (.ok data)) hkey]
  constructor
  · intro c hc
    simp [hc, h2xx.1, h2xx.2]
  · intro hc
    simp [hc, h2xx.1, h2xx.2]

/-- Witness for C1 (amended): padded content `"  hello  "` yields exactly
`"hello"`, and an empty choices array yields the no-content diagnostic. -/
theorem C1_success_extraction_witness :
    (fetchDeepseekCompletion "hi" (some sampleReqEnv) none
      (.response 200 "" (.ok ⟨some [⟨some ⟨some "  hello  "⟩⟩]⟩))).reply = "hello" ∧
    (fetchDeepseekCompletion "hi" (some sampleReqEnv) none
      (.response 200 "" (.ok ⟨some []⟩))).reply = noContentDiag := by
  constructor
  · have h := (C1_success_extraction "hi" (some sampleReqEnv) none 200 ""
      ⟨some [⟨some ⟨some "  hello  "⟩⟩]⟩ "req-key" (by decide) (by decide)).1
      "  hello  " rfl
    rw [h]
    decide
  · exact (C1_success_extraction "hi" (some sampleReqEnv) none 200 ""
      ⟨some []⟩ "req-key" (by decide) (by decide)).2 rfl

/-- C4: for every user message, settings source and upstream outcome
(success, non-2xx status, transport error, malformed JSON, abort), the
relay returns a string of one of the five displayable shapes; no outcome
escapes its boundary as an exception. -/
theorem C4_always_returns_text (userMessage : String)
    (env processEnv : Option WorkerEnv) (upstream : FetchResult) :
    (fetchDeepseekCompletion userMessage env processEnv upstream).reply = missingKeyDiag ∨
    (∃ t, (fetchDeepseekCompletion userMessage env processEnv upstream).reply =
      timeoutDiag t) ∨
    (∃ m, (fetchDeepseekCompletion userMessage env processEnv upstream).reply =
      errDiagHead ++ m) ∨
    (fetchDeepseekCompletion userMessage env processEnv upstream).reply = noContentDiag ∨
    (∃ c, (fetchDeepseekCompletion userMessage env processEnv upstream).reply =
      jsTrim c) := by
  cases hkey : readEnvValue .DEEPSEEK_API_KEY env processEnv with
  | none =>
    left
    rw [fetchDeepseekCompletion_missingKey userMessage env processEnv upstream hkey]
  | some v =>
    rw [fetchDeepseekCompletion_presentKey userMessage env processEnv upstream hkey]
    cases upstream with
    | thrown e =>
      cases e with
      | jsError name msg =>
        by_cases hn : name = "AbortError"
        · right; left
          exact ⟨effectiveTimeoutMs (readEnvValue .DEEPSEEK_TIMEOUT_MS env processEnv),
            by simp [catchHandler, hn]⟩
        · right; right; left
          exact ⟨msg, by simp [catchHandler, hn]⟩
      | nonError =>
        right; right; left
        exact ⟨unknownReason, by simp [catchHandler]⟩
    | response status bodyText json =>
      by_cases hs : 200 ≤ status ∧ status ≤ 299
      · cases json with
        | error e =>
          cases e with
          | jsError name msg =>
            by_cases hn : name = "AbortError"
            · right; left
              exact ⟨effectiveTimeoutMs (readEnvValue .DEEPSEEK_TIMEOUT_MS env processEnv),
                by simp [catchHandler, hn, hs.1, hs.2]⟩
            · right; right; left
              exact ⟨msg, by simp [catchHandler, hn, hs.1, hs.2]⟩
          | nonError =>
            right; right; left
            exact ⟨unknownReason, by simp [catchHandler, hs.1, hs.2]⟩
        | ok data =>
          cases hc : extractContent data with
          | none =>
            right; right; right; left
            simp [hc, hs.1, hs.2]
          | some c =>
            right; right; right; right
            exact ⟨c, by simp [hc, hs.1, hs.2]⟩
      · right; right; left
        exact ⟨httpErrorMessage status bodyText,
          by simp [catchHandler, hs, error_ne_abort]⟩

/-- C5: every non-2xx upstream status yields a diagnostic embedding the
numeric status and the body text, an empty body being replaced by the
literal `unknown`. -/
theorem C5_http_error_diag (userMessage : String)
    (env processEnv : Option WorkerEnv) (status : Nat) (bodyText : String)
    (json : Except JsError DeepseekChatResponse) (v : String)
    (hkey : readEnvValue .DEEPSEEK_API_KEY env processEnv = some v)
    (hstatus : ¬ (200 ≤ status ∧ status ≤ 299)) :
    (fetchDeepseekCompletion userMessage env processEnv
      (.response status bodyText json)).reply =
      errDiagHead ++ ("DeepSeek request failed (" ++ toString status ++ "): " ++
        (if bodyText = "" then "unknown" else bodyText)) := by
  rw [fetchDeepseekCompletion_presentKey userMessage env processEnv
    (.response status bodyText json) hkey]
  simp [hstatus, catchHandler, error_ne_abort, httpErrorMessage]

/-- Witness for C5: HTTP 500 with body `boom` yields a diagnostic
containing both `500` and `boom`. -/
theorem C5_http_error_diag_witness :
    ¬ (200 ≤ 500 ∧ 500 ≤ 299) ∧
    (fetchDeepseekCompletion "hi" (some sampleReqEnv) none
      (.response 500 "boom" (.ok ⟨none⟩))).reply =
      "抱歉，调用 DeepSeek 出错：DeepSeek request failed (500): boom" := by
  refine ⟨by decide, ?_⟩
  have h := C5_http_error_diag "hi" (some sampleReqEnv) none 500 "boom"
    (.ok ⟨none⟩) "req-key" (by decide) (by decide)
  rw [h]
  decide

/-- C6: the resolved `timeout_ms` setting is parsed as a JS number; a
finite positive parse is the effective timeout, any other parse (NaN,
infinite, zero or negative) and the absent case fall back to 25000 ms;
and the relay arms its timer with exactly that effective value. -/
theorem C6_timeout_policy (env processEnv : Option WorkerEnv) :
    (readEnvValue .DEEPSEEK_TIMEOUT_MS env processEnv = none →
      effectiveTimeoutMs (readEnvValue .DEEPSEEK_TIMEOUT_MS env processEnv) = 25000) ∧
    (∀ s q, readEnvValue .DEEPSEEK_TIMEOUT_MS env processEnv = some s →
      jsStringToNumber s = .finite q → 0 < q →
      effectiveTimeoutMs (readEnvValue .DEEPSEEK_TIMEOUT_MS env processEnv) = q) ∧
    (∀ s q, readEnvValue .DEEPSEEK_TIMEOUT_MS env processEnv = some s →
      jsStringToNumber s = .finite q → q ≤ 0 →
      effectiveTimeoutMs (readEnvValue .DEEPSEEK_TIMEOUT_MS env processEnv) = 25000) ∧
    (∀ s, readEnvValue .DEEPSEEK_TIMEOUT_MS env processEnv = some s →
      (jsStringToNumber s).isFinite = false →
      effectiveTimeoutMs (readEnvValue .DEEPSEEK_TIMEOUT_MS env processEnv) = 25000) ∧
    (∀ userMessage upstream v,
      readEnvValue .DEEPSEEK_API_KEY env processEnv = some v →
      (fetchDeepseekCompletion userMessage env processEnv upstream).events.head? =
        some (.setTimeoutEvt
          (effectiveTimeoutMs (readEnvValue .DEEPSEEK_TIMEOUT_MS env processEnv)))) := by
  refine ⟨?_, ?_, ?_, ?_, ?_⟩
  · intro h
    rw [h]
    rfl
  · intro s q hs hq hpos
    rw [hs]
    simp [effectiveTimeoutMs, hq, hpos]
  · intro s q hs hq hnonpos
    rw [hs]
    simp [effectiveTimeoutMs, hq, not_lt.mpr hnonpos]
  · intro s hs hfin
    rw [hs]
    cases hq : jsStringToNumber s with
    | nan => simp [effectiveTimeoutMs, hq]
    | inf b => simp [effectiveTimeoutMs, hq]
    | finite q => rw [hq] at hfin; cases hfin
  · intro userMessage upstream v hkey
    rw [fetchDeepseekCompletion_presentKey userMessage env processEnv upstream hkey]
    rfl

/-- Witness for C6: `"3000"` parses to 3000 which is used; an absent
setting yields 25000; `"abc"` parses to NaN and yields 25000; and a
concrete invocation arms its timer with the effective value. -/
theorem C6_timeout_policy_witness :
    effectiveTimeoutMs (readEnvValue .DEEPSEEK_TIMEOUT_MS (some sampleTimeoutEnv) none) = 3000 ∧
    effectiveTimeoutMs (readEnvValue .DEEPSEEK_TIMEOUT_MS (some sampleReqEnv) none) = 25000 ∧
    (fetchDeepseekCompletion "hi" (some sampleTimeoutEnv) none
      (.thrown .nonError)).events.head? =
      some (.setTimeoutEvt
        (effectiveTimeoutMs (readEnvValue .DEEPSEEK_TIMEOUT_MS (some sampleTimeoutEnv) none))) :=
  ⟨(C6_timeout_policy (some sampleTimeoutEnv) none).2.1 "3000" 3000
      (by decide) (by decide) (by decide),
   (C6_timeout_policy (some sampleReqEnv) none).1 (by decide),
   (C6_timeout_policy (some sampleTimeoutEnv) none).2.2.2.2 "hi" (.thrown .nonError)
      "sk-test" (by decide)⟩

/-- C7: when the upstream call fails with an `Error` named `AbortError`
(the cancellation identity used by the fired timer), the reply states the
effective timeout in whole seconds, the floor of timeoutMs over 1000; any
other `Error` yields the generic diagnostic with the error message, and a
non-`Error` thrown value yields the fixed unknown-reason diagnostic. -/
theorem C7_thrown_mapping (userMessage : String)
    (env processEnv : Option WorkerEnv) (v : String) (e : JsError)
    (hkey : readEnvValue .DEEPSEEK_API_KEY env processEnv = some v) :
    (∀ msg, e = .jsError "AbortError" msg →
      (fetchDeepseekCompletion userMessage env processEnv (.thrown e)).reply =
        "与 DeepSeek 的连接在 " ++
          toString
            ⌊effectiveTimeoutMs (readEnvValue .DEEPSEEK_TIMEOUT_MS env processEnv) / 1000⌋ ++
          " 秒后超时，请再尝试一次。") ∧
    (∀ name msg, e = .jsError name msg → name ≠ "AbortError" →
      (fetchDeepseekCompletion userMessage env processEnv (.thrown e)).reply =
        errDiagHead ++ msg) ∧
    (e = .nonError →
      (fetchDeepseekCompletion userMessage env processEnv (.thrown e)).reply =
        errDiagHead ++ unknownReason) := by
  rw [fetchDeepseekCompletion_presentKey userMessage env processEnv (.thrown e) hkey]
  refine ⟨?_, ?_, ?_⟩
  · rintro msg rfl
    simp [catchHandler, timeoutDiag]
  · rintro name msg rfl hn
    simp [catchHandler, hn]
  · rintro rfl
    simp [catchHandler]

/-- Witness for C7: with a 3000 ms timeout configured, an abort error
yields the 3-second timeout diagnostic; a named network error embeds its
message; a non-`Error` thrown value yields the unknown-reason text. -/
theorem C7_thrown_mapping_witness :
    (fetchDeepseekCompletion "hi" (some sampleTimeoutEnv) none
      (.thrown (.jsError "AbortError" "aborted"))).reply =
      "与 DeepSeek 的连接在 3 秒后超时，请再尝试一次。" ∧
    (fetchDeepseekCompletion "hi" (some sampleTimeoutEnv) none
      (.thrown (.jsError "TypeError" "fetch failed"))).reply =
      "抱歉，调用 DeepSeek 出错：fetch failed" ∧
    (fetchDeepseekCompletion "hi" (some sampleTimeoutEnv) none
      (.thrown .nonError)).reply = "抱歉，调用 DeepSeek 出错：未知原因" := by
  refine ⟨?_, ?_, ?_⟩
  · have h := (C7_thrown_mapping "hi" (some sampleTimeoutEnv) none "sk-test"
      (.jsError "AbortError" "aborted") (by decide)).1 "aborted" rfl
    have e1 : effectiveTimeoutMs
        (readEnvValue .DEEPSEEK_TIMEOUT_MS (some sampleTimeoutEnv) none) = 3000 := by decide
    rw [e1] at h
    have e2 : ⌊(3000 : ℚ) / 1000⌋ = 3 := by norm_num
    rw [e2] at h
    rw [h]
    decide
  · have h := (C7_thrown_mapping "hi" (some sampleTimeoutEnv) none "sk-test"
      (.jsError "TypeError" "fetch failed") (by decide)).2.1 "TypeError" "fetch failed"
      rfl (by decide)
    rw [h]
    decide
  · have h := (C7_thrown_mapping "hi" (some sampleTimeoutEnv) none "sk-test"
      .nonError (by decide)).2.2 rfl
    rw [h]
    decide

/-- C8: every invocation that reaches the upstream call issues a POST to
the resolved base URL with a single trailing slash stripped plus the
fixed completion path, with the JSON content type and bearer
authorization headers, and a body of the resolved model (default
`deepseek-chat`), temperature 0.7, max_tokens 400, and the fixed system
persona followed by the caller message as the only user turn; stripping
removes exactly one trailing slash. -/
theorem C8_request_construction (userMessage : String)
    (env processEnv : Option WorkerEnv) (upstream : FetchResult) (v : String)
    (hkey : readEnvValue .DEEPSEEK_API_KEY env processEnv = some v) :
    firstFetchReq (fetchDeepseekCompletion userMessage env processEnv upstream) =
      some
        { url := stripTrailingSlash
            ((readEnvValue .DEEPSEEK_BASE_URL env processEnv).getD
              "https://api.deepseek.com") ++ "/v1/chat/completions"
          method := "POST"
          contentType := "application/json"
          authorization := "Bearer " ++ v
          model := (readEnvValue .DEEPSEEK_MODEL env processEnv).getD "deepseek-chat"
          temperature := 7 / 10
          max_tokens := 400
          messages := [("system", systemPersona), ("user", userMessage)] } ∧
    (∀ b : String, stripTrailingSlash (b ++ "/") = b) := by
  constructor
  · rw [fetchDeepseekCompletion_presentKey userMessage env processEnv upstream hkey]
    rfl
  · intro b
    have hd : (b ++ "/").data = b.data ++ ['/'] := String.data_append b "/"
    unfold stripTrailingSlash
    rw [hd, List.getLast?_concat, if_pos rfl, List.dropLast_concat]

/-- Witness for C8: with a trailing-slash base URL, a custom model and a
padded-free key, the constructed request is exactly as described. -/
theorem C8_request_construction_witness :
    firstFetchReq (fetchDeepseekCompletion "hello" (some sampleFullEnv) none
      (.thrown .nonError)) =
      some
        { url := "https://example.com/v1/chat/completions"
          method := "POST"
          contentType := "application/json"
          authorization := "Bearer sk-test"
          model := "my-model"
          temperature := 7 / 10
          max_tokens := 400
          messages := [("system", systemPersona), ("user", "hello")] } ∧
    stripTrailingSlash "https://example.com/" = "https://example.com" := by
  have h := C8_request_construction "hello" (some sampleFullEnv) none
    (.thrown .nonError) "sk-test" (by decide)
  constructor
  · exact h.1.trans (by rfl)
  · exact h.2 "https://example.com"

/-- C9: an invocation that arms the cancellation timer clears exactly one
timer, as the final action of the trace, on every exit path; and at most
one upstream HTTP call appears in any trace. -/
theorem C9_timer_discipline (userMessage : String)
    (env processEnv : Option WorkerEnv) (upstream : FetchResult) :
    (fetchDeepseekCompletion userMessage env processEnv upstream).events.countP
        RelayEvent.isSetTimeout =
      (fetchDeepseekCompletion userMessage env processEnv upstream).events.countP
        RelayEvent.isClearTimeout ∧
    (fetchDeepseekCompletion userMessage env processEnv upstream).events.countP
      RelayEvent.isFetch ≤ 1 ∧
    (∀ tm, RelayEvent.setTimeoutEvt tm ∈
        (fetchDeepseekCompletion userMessage env processEnv upstream).events →
      (fetchDeepseekCompletion userMessage env processEnv upstream).events.countP
          RelayEvent.isClearTimeout = 1 ∧
      (fetchDeepseekCompletion userMessage env processEnv upstream).events.getLast? =
        some .clearTimeoutEvt) := by
  cases hkey : readEnvValue .DEEPSEEK_API_KEY env processEnv with
  | none =>
    rw [fetchDeepseekCompletion_missingKey userMessage env processEnv upstream hkey]
    refine ⟨rfl, by decide, ?_⟩
    intro tm htm
    cases htm
  | some v =>
    rw [fetchDeepseekCompletion_presentKey userMessage env processEnv upstream hkey]
    refine ⟨rfl, ?_, ?_⟩
    · simp [List.countP_cons, RelayEvent.isFetch]
    · intro tm htm
      exact ⟨rfl, rfl⟩

/-- Witness for C9: a concrete armed invocation has exactly one clear
event, placed last. -/
theorem C9_timer_discipline_witness :
    (fetchDeepseekCompletion "hi" (some sampleReqEnv) none
      (.thrown .nonError)).events.countP RelayEvent.isClearTimeout = 1 ∧
    (fetchDeepseekCompletion "hi" (some sampleReqEnv) none
      (.thrown .nonError)).events.getLast? = some .clearTimeoutEvt :=
  (C9_timer_discipline "hi" (some sampleReqEnv) none (.thrown .nonError)).2.2
    25000 (by decide)

/-- C10: the resolver judges blankness on the trimmed value but returns
the original string verbatim: a value non-blank after trimming that still
carries surrounding whitespace is resolved unchanged and embedded
untrimmed into the bearer authorization header. -/
theorem C10_untrimmed_value (env processEnv : Option WorkerEnv) (v : String)
    (hreq : env.bind (fun e => e .DEEPSEEK_API_KEY) = some v)
    (htrim : jsTrim v ≠ "") (hpad : jsTrim v ≠ v) :
    readEnvValue .DEEPSEEK_API_KEY env processEnv = some v ∧
    ∀ userMessage upstream, ∃ req,
      firstFetchReq (fetchDeepseekCompletion userMessage env processEnv upstream) =
        some req ∧
      req.authorization = "Bearer " ++ v := by
  have hk := readEnvValue_req processEnv hreq htrim
  refine ⟨hk, ?_⟩
  intro userMessage upstream
  rw [fetchDeepseekCompletion_presentKey userMessage env processEnv upstream hk]
  exact ⟨_, rfl, rfl⟩

/-- Witness for C10: the key `"  key  "` (padded, non-blank) resolves
verbatim and the authorization header keeps the padding. -/
theorem C10_untrimmed_value_witness :
    readEnvValue .DEEPSEEK_API_KEY (some samplePaddedEnv) none = some "  key  " ∧
    (∃ req,
      firstFetchReq (fetchDeepseekCompletion "hi" (some samplePaddedEnv) none
        (.thrown .nonError)) = some req ∧
      req.authorization = "Bearer   key  ") := by
  have h := C10_untrimmed_value (some samplePaddedEnv) none "  key  "
    rfl (by decide) (by decide)
  refine ⟨h.1, ?_⟩
  obtain ⟨req, h1, h2⟩ := h.2 "hi" (.thrown .nonError)
  exact ⟨req, h1, by rw [h2]; decide⟩
